import Mathlib

/-!
Verification development for the voice-sample extraction step of the
x_account_validation repository (file src/step6_voice_sample_extractor.py).

The Python source is embedded shallowly: pure string manipulation becomes
Lean functions on String / List Char, machine integers become Int/Nat
(Python integers are unbounded, so no wrap-around is modelled), and every
interaction with the outside world (subprocess invocations of yt-dlp,
filesystem existence checks, wall-clock reads, the runtime string hash) is
abstracted as an explicit outcome value or an oracle function passed in as
a parameter.  Character classes of the regular expressions used by the
source are modelled over ASCII (the source compiles them with re.UNICODE;
all inputs exercised by the theorems below are ASCII, where the two agree).
-/

namespace VoiceExtract

/-! ### Character and string helpers mirroring Python primitives -/

/-- ASCII whitespace, as stripped by Python str.strip() and matched by the
regex class for whitespace (space, tab, newline, carriage return, vertical
tab, form feed). -/
def pyIsSpace (c : Char) : Bool :=
  c.toNat = 32 || c.toNat = 9 || c.toNat = 10 || c.toNat = 13 ||
  c.toNat = 11 || c.toNat = 12

/-- ASCII word character: A-Z, a-z, 0-9 and underscore.  Models both the
word class of the first substitution in sanitize and the explicit class
a-zA-Z0-9_ of its last substitution (over ASCII the two coincide). -/
def isAsciiWordChar (c : Char) : Bool :=
  (65 ≤ c.toNat && c.toNat ≤ 90) || (97 ≤ c.toNat && c.toNat ≤ 122) ||
  (48 ≤ c.toNat && c.toNat ≤ 57) || c.toNat = 95

/-- Python str.lower() restricted to ASCII: map A-Z to a-z, leave the rest. -/
def pyLowerChar (c : Char) : Char :=
  if 65 ≤ c.toNat && c.toNat ≤ 90 then Char.ofNat (c.toNat + 32) else c

/-- Strip p-satisfying characters from both ends of a character list
(Python str.strip semantics). -/
def stripList (p : Char → Bool) (l : List Char) : List Char :=
  ((l.dropWhile p).reverse.dropWhile p).reverse

/-- Python str.strip() with no argument: strip whitespace from both ends. -/
def pyStrip (s : String) : String := String.mk (stripList pyIsSpace s.data)

/-- Python str.lower() (ASCII fragment). -/
def pyLower (s : String) : String := String.mk (s.data.map pyLowerChar)

/-- Python str.split(sep) for a single-character separator: splits on every
occurrence, keeping empty pieces (so splitting the empty string yields one
empty piece). -/
def splitOnChar (sep : Char) : List Char → List (List Char)
  | [] => [[]]
  | c :: cs =>
      let r := splitOnChar sep cs
      if c = sep then [] :: r
      else
        match r with
        | [] => [[c]]
        | piece :: rest => (c :: piece) :: rest

/-- Decimal value of a digit run; none if any character is not 0-9. -/
def digitsValAux : List Char → Nat → Option Nat
  | [], acc => some acc
  | c :: cs, acc =>
      if 48 ≤ c.toNat && c.toNat ≤ 57 then
        digitsValAux cs (acc * 10 + (c.toNat - 48))
      else none

/-- Decimal value of a nonempty digit run. -/
def digitsVal (l : List Char) : Option Nat :=
  match l with
  | [] => none
  | _ :: _ => digitsValAux l 0

/-- Python int(str): strip whitespace, optional sign, nonempty run of
decimal digits; none models a raised ValueError.  (Python additionally
accepts underscore digit separators and non-ASCII decimal digits; neither
occurs in duration strings and they are not modelled.) -/
def pyInt (l : List Char) : Option Int :=
  match (stripList pyIsSpace l) with
  | '+' :: rest => (digitsVal rest).map Int.ofNat
  | '-' :: rest => (digitsVal rest).map (fun n => -(n : Int))
  | t => (digitsVal t).map Int.ofNat

/-! ### Duration parsing and resolution
(source: _parse_duration_string, _get_optimal_duration) -/

/-- Embeds _parse_duration_string.  The source splits on a colon; with three
parts it returns int(parts[0])*3600 + int(parts[1])*60 + int(parts[2]).
In the two-part branch the source evaluates int(parts) — int applied to the
whole list, which raises TypeError — and in the final branch it evaluates
int(float(parts)), where float applied to the list likewise raises
TypeError; the bare except then returns 0 in both cases, and 0 is also
returned when any int() call raises ValueError. -/
def parse_duration_string (s : String) : Int :=
  let parts := splitOnChar ':' s.data
  if parts.length = 3 then
    match pyInt (parts.getD 0 []), pyInt (parts.getD 1 []),
          pyInt (parts.getD 2 []) with
    | some h, some m, some sec => h * 3600 + m * 60 + sec
    | _, _, _ => 0
  else if parts.length = 2 then
    0
  else
    0

/-- Outcome of the duration-probe subprocess call (yt-dlp --get-duration,
30 s bound): a completed run with its exit code and captured stdout, a
timeout of the bounded wait, or any other raised exception. -/
inductive ProbeOutcome where
  | ok (returncode : Int) (stdout : String)
  | timedOut
  | raised
deriving DecidableEq

/-- The clamp written inline in _get_optimal_duration:
max(min_duration, min(total_seconds, max_duration)). -/
def clampDuration (minD maxD t : Int) : Int := max minD (min t maxD)

/-- Embeds _get_optimal_duration.  On a completed probe with exit code 0 and
nonempty stripped stdout the duration string is parsed; a positive parse is
clamped into the configured range and returned, otherwise (and on every
probe failure, timeout or exception) the configured maximum is returned. -/
def get_optimal_duration (minD maxD : Int) (p : ProbeOutcome) : Int :=
  match p with
  | .ok rc out =>
      if rc = 0 ∧ pyStrip out ≠ "" then
        let total := parse_duration_string (pyStrip out)
        if 0 < total then clampDuration minD maxD total else maxD
      else maxD
  | .timedOut => maxD
  | .raised => maxD

/-- Probe outcomes on which _get_optimal_duration cannot obtain a positive
parsed duration: nonzero exit, empty stripped output, a non-positive parse,
a timeout, or a raised exception. -/
def probeFailed : ProbeOutcome → Bool
  | .ok rc out =>
      decide (rc ≠ 0) || decide (pyStrip out = "") ||
      decide (parse_duration_string (pyStrip out) ≤ 0)
  | .timedOut => true
  | .raised => true

/-! ### Substring helpers mirroring Python operators -/

/-- Whether the first list is a prefix of the second (Bool-valued,
executable). -/
def isPrefixList : List Char → List Char → Bool
  | [], _ => true
  | _ :: _, [] => false
  | a :: as, b :: bs => a = b && isPrefixList as bs

/-- Python substring test (needle in haystack). -/
def containsSub (needle : List Char) : List Char → Bool
  | [] => isPrefixList needle []
  | c :: cs => isPrefixList needle (c :: cs) || containsSub needle cs

/-- Python str.endswith. -/
def endsWithStr (s tail : String) : Bool :=
  isPrefixList tail.data.reverse s.data.reverse

/-- Python str.rstrip with a slash argument: remove trailing slashes. -/
def pyRStripSlash (s : String) : String :=
  String.mk ((s.data.reverse.dropWhile (fun c => c = '/')).reverse)

/-! ### The quality ladder
(source: _extract_youtube_sample, _extract_twitch_sample) -/

/-- Outcome of one yt-dlp extraction invocation (one ladder rung): either
the subprocess completed, with its exit code together with whether the
target output file exists afterwards and its size, or the bounded wait
timed out, or some other exception was raised.  Timeout and exception are
caught by the source's per-rung handlers and advance to the next rung. -/
inductive RunOutcome where
  | completed (returncode : Int) (fileExists : Bool) (fileSize : Nat)
  | timedOut
  | raised
deriving DecidableEq

/-- The source's per-rung success test: returncode == 0 and the output
file exists on disk. -/
def rungWins : RunOutcome → Bool
  | .completed rc ex _ => decide (rc = 0) && ex
  | _ => false

/-- Size reported by os.path.getsize on the winning rung's output file. -/
def outcomeFileSize : RunOutcome → Nat
  | .completed _ _ sz => sz
  | _ => 0

/-- The result dictionary returned by the extraction helpers: success flag
and status are always present, the remaining keys only on success. -/
structure ExtractionResult where
  success : Bool
  status : String
  file_path : Option String := none
  actual_duration : Option Int := none
  file_size : Option Nat := none
deriving DecidableEq

/-- Status string of a successful rung, e.g.
youtube_success_nick_quality_128_duration_45s. -/
def success_status (tag nickname q : String) (duration : Int) : String :=
  tag ++ "_success_" ++ nickname ++ "_quality_" ++ q ++ "_duration_" ++
    toString duration ++ "s"

/-- The success dictionary built when a rung wins, carrying that rung's
bitrate inside the status string and the probed file size. -/
def winResultOf (tag q outputPath nickname : String) (duration : Int)
    (o : RunOutcome) : ExtractionResult :=
  { success := true
    status := success_status tag nickname q duration
    file_path := some outputPath
    actual_duration := some duration
    file_size := some (outcomeFileSize o) }

/-- The failure dictionary returned after all rungs are exhausted. -/
def allQualitiesFailure (tag nickname : String) (duration : Int) :
    ExtractionResult :=
  { success := false
    status := tag ++ "_failed_all_qualities_" ++ nickname ++ "_duration_" ++
      toString duration ++ "s" }

/-- The for-loop over quality_options shared by both platform extractors:
try each (bitrate, timeout) rung in order; the first rung whose invocation
completes with exit code 0 and whose output file exists wins; a timeout,
an exception, a nonzero exit or a missing file advances to the next rung;
an exhausted list yields the all-qualities failure.  The oracle gives the
outcome of the n-th invocation issued by this loop. -/
def runLadder (tag : String) (rungs : List (String × Int))
    (oracle : Nat → RunOutcome) (outputPath nickname : String)
    (duration : Int) : ExtractionResult :=
  match rungs with
  | [] => allQualitiesFailure tag nickname duration
  | (q, _) :: rest =>
      if rungWins (oracle 0) then
        winResultOf tag q outputPath nickname duration (oracle 0)
      else
        runLadder tag rest (fun n => oracle (n + 1)) outputPath nickname
          duration

/-- timeout_multiplier = max(1, duration // 300). -/
def timeoutMultiplier (duration : Int) : Int := max 1 (Int.fdiv duration 300)

/-- The YouTube ladder: configured quality first, then 128, 96, 64 kbps,
with timeouts 300/240/180/120 s scaled by the multiplier. -/
def youtube_quality_options (quality : String) (duration : Int) :
    List (String × Int) :=
  let m := timeoutMultiplier duration
  [(quality, 300 * m), ("128", 240 * m), ("96", 180 * m), ("64", 120 * m)]

/-- The Twitch ladder: configured quality first, then 128, 96, 64 kbps,
with timeouts 400/350/300/250 s scaled by the multiplier. -/
def twitch_quality_options (quality : String) (duration : Int) :
    List (String × Int) :=
  let m := timeoutMultiplier duration
  [(quality, 400 * m), ("128", 350 * m), ("96", 300 * m), ("64", 250 * m)]

/-- Embeds _extract_youtube_sample: the ladder loop over the YouTube
quality options.  The url parameter is forwarded to the external
invocations, whose outcomes the oracle abstracts. -/
def extract_youtube_sample (cfgQuality : String) (oracle : Nat → RunOutcome)
    (url outputPath nickname : String) (duration : Int) : ExtractionResult :=
  let _ := url
  runLadder "youtube" (youtube_quality_options cfgQuality duration) oracle
    outputPath nickname duration

/-! ### Twitch VOD resolution
(source: _try_get_recent_twitch_vod and the URL dispatch at the top of
_extract_twitch_sample) -/

/-- Outcome of the VOD-listing subprocess (yt-dlp --dump-json
--playlist-end 1, 120 s bound), as observed by the source:
noOutput models a nonzero exit or empty stripped stdout (when stdout
strips nonempty, the list of nonempty lines is necessarily nonempty, so
the source's lines check cannot fail separately); errored models a raised
exception — the bounded wait expiring or json.loads failing on the first
line — caught by the enclosing handler with message str(e)[:100]; parsed
carries the webpage_url and url fields of the decoded first record, none
for an absent field. -/
inductive ListingOutcome where
  | noOutput
  | errored (msg : String)
  | parsed (webpageUrl : Option String) (urlField : Option String)
deriving DecidableEq

/-- Python (a or b) followed by a truthiness test, on two optional strings:
the first present nonempty string, none if neither is present and
nonempty. -/
def pyOrTruthy (a b : Option String) : Option String :=
  match a with
  | some s =>
      if s ≠ "" then some s
      else
        match b with
        | some t => if t ≠ "" then some t else none
        | none => none
  | none =>
      match b with
      | some t => if t ≠ "" then some t else none
      | none => none

/-- The failure dictionary when no recent VOD could be resolved. -/
def noRecentVodsFailure (nickname : String) : ExtractionResult :=
  { success := false, status := "no_recent_vods_found_for_" ++ nickname }

/-- The failure dictionary when the VOD search raised an exception. -/
def vodSearchFailure (nickname msg : String) : ExtractionResult :=
  { success := false
    status := "twitch_vod_search_failed_" ++ nickname ++ ": " ++ msg }

/-- Embeds _try_get_recent_twitch_vod.  The videosUrl parameter is the
channel listing URL handed to the external invocation (abstracted by the
listing outcome).  On a decoded record the VOD URL is webpage_url or url
(Python or, then an if-truthy test); with a usable URL the source recurses
into _extract_twitch_sample on it, here the continuation k; every other
path yields the no-recent-VODs failure, except a raised exception which
yields the search-failed failure. -/
def try_get_recent_twitch_vod (videosUrl : String)
    (listing : ListingOutcome) (nickname : String)
    (k : String → ExtractionResult) : ExtractionResult :=
  let _ := videosUrl
  match listing with
  | .noOutput => noRecentVodsFailure nickname
  | .errored msg => vodSearchFailure nickname msg
  | .parsed w u =>
      match pyOrTruthy w u with
      | some vodUrl => k vodUrl
      | none => noRecentVodsFailure nickname

/-- External observations available to one activation of
_extract_twitch_sample: the listing outcome of a possible VOD search and
the oracle for its ladder invocations. -/
structure TwitchStepEnv where
  listing : ListingOutcome
  oracle : Nat → RunOutcome

/-- Embeds _extract_twitch_sample.  The source first dispatches on the URL:
when the URL contains neither /videos/ nor /clip/ and does not end in
/videos, it resolves the most recent VOD of the channel listing URL
url.rstrip('/') + '/videos' and recurses on the resolved VOD URL; every
other URL — a direct VOD or clip URL, and also a channel URL already
ending in /videos, which satisfies the outer not-in test but fails the
inner endswith test and so falls through — runs the Twitch quality ladder
directly.  envs gives the observations of the activation at each recursion
depth; fuel bounds the recursion (Python would raise RecursionError,
caught by _extract_audio_sample as an extraction error). -/
def extract_twitch_sample (cfgQuality : String)
    (envs : Nat → TwitchStepEnv) (depth : Nat) (fuel : Nat)
    (url outputPath nickname : String) (duration : Int) : ExtractionResult :=
  match fuel with
  | 0 =>
      { success := false
        status := "extraction_error_for_" ++ nickname ++
          ": maximum recursion depth exceeded" }
  | Nat.succ fuel' =>
      if !containsSub "/videos/".data url.data &&
         !containsSub "/clip/".data url.data &&
         !endsWithStr url "/videos" then
        try_get_recent_twitch_vod (pyRStripSlash url ++ "/videos")
          (envs depth).listing nickname
          (fun vodUrl =>
            extract_twitch_sample cfgQuality envs (depth + 1) fuel' vodUrl
              outputPath nickname duration)
      else
        runLadder "twitch" (twitch_quality_options cfgQuality duration)
          (envs depth).oracle outputPath nickname duration

/-! ### Username extraction
(source: _extract_best_username, _extract_username_from_url,
_is_empty_value, _is_descriptive_text) -/

/-- Embeds _is_empty_value for a string value (pd.isna is false on every
string): lower, strip, membership in the empty-value sentinels. -/
def is_empty_value (s : String) : Bool :=
  let t := pyStrip (pyLower s)
  t = "nan" || t = "" || t = "none" || t = "null"

/-- The blocklist of descriptive (non-identity) words. -/
def descriptive_words : List String :=
  ["check", "pinned", "moved", "see", "bio", "link", "follow", "subscribe"]

/-- Embeds _is_descriptive_text: empty or over-30-character text is
descriptive; otherwise at least one blocklisted word occurring in the
lowered text, or at least two spaces in the original text, makes it
descriptive. -/
def is_descriptive_text (t : String) : Bool :=
  if t = "" || 30 < t.length then true
  else
    let tl := pyLower t
    let wordCount :=
      (descriptive_words.filter (fun w => containsSub w.data tl.data)).length
    1 ≤ wordCount || 2 ≤ (t.data.filter (fun c => c = ' ')).length

/-- Simulates re.search for a pattern of the shape literal + one-or-more
capture of characters satisfying ok (with nothing after the capture):
scan start positions left to right, match the literal, take the maximal
nonempty run of ok characters; an empty run fails this start position and
the scan continues, exactly as the regex engine retries the next start. -/
def findCaptureAux (lit : List Char) (ok : Char → Bool) :
    List Char → Option (List Char)
  | [] => none
  | c :: cs =>
      if isPrefixList lit (c :: cs) then
        let rest := (c :: cs).drop lit.length
        let cap := rest.takeWhile ok
        if cap.isEmpty then findCaptureAux lit ok cs else some cap
      else findCaptureAux lit ok cs

/-- Simulates re.search for literal + greedy nonempty capture of ok
characters + a literal tail.  No backtracking into the capture is needed
to be faithful here: each tail used by the source starts with a slash,
which the capture class excludes, so only the maximal run can be followed
by the tail. -/
def findCaptureThenAux (lit : List Char) (ok : Char → Bool)
    (tail : List Char) : List Char → Option (List Char)
  | [] => none
  | c :: cs =>
      if isPrefixList lit (c :: cs) then
        let rest := (c :: cs).drop lit.length
        let cap := rest.takeWhile ok
        if !cap.isEmpty && isPrefixList tail (rest.drop cap.length) then
          some cap
        else findCaptureThenAux lit ok tail cs
      else findCaptureThenAux lit ok tail cs

/-- Python s[:n]. -/
def pyTake (n : Nat) (l : List Char) : List Char := l.take n

/-- Python s[-n:]: the last n characters (the whole list when shorter). -/
def lastN (n : Nat) (l : List Char) : List Char := l.drop (l.length - n)

/-- Capture class excluding slash and question mark. -/
def notSlashQ (c : Char) : Bool := !(c = '/' || c = '?')

/-- The six YouTube URL patterns, tried in source order: /channel/,
/user/, /c/, /@, /watch?v= (capture up to an ampersand) and youtu.be/. -/
def youtubeCapture (l : List Char) : Option (List Char) :=
  findCaptureAux "/channel/".data notSlashQ l <|>
  findCaptureAux "/user/".data notSlashQ l <|>
  findCaptureAux "/c/".data notSlashQ l <|>
  findCaptureAux "/@".data notSlashQ l <|>
  findCaptureAux "/watch?v=".data (fun c => !(c = '&')) l <|>
  findCaptureAux "youtu.be/".data notSlashQ l

/-- The lowered-capture blocklist of the Twitch branch. -/
def twitchBlock (cap : List Char) : Bool :=
  let low := cap.map pyLowerChar
  low = "videos".data || low = "clips".data || low = "collections".data

/-- Second Twitch pattern: twitch.tv/ + capture without slashes + /videos,
its result truncated to 20 characters when not blocklisted; a blocklisted
capture exhausts the pattern list and yields none. -/
def twitchSecondCapture (l : List Char) : Option String :=
  match findCaptureThenAux "twitch.tv/".data (fun c => !(c = '/'))
      "/videos".data l with
  | some cap =>
      if !twitchBlock cap then some (String.mk (pyTake 20 cap)) else none
  | none => none

/-- First Twitch pattern: twitch.tv/ + capture excluding slash and
question mark; a blocklisted capture falls through to the second
pattern. -/
def twitchCapture (l : List Char) : Option String :=
  match findCaptureAux "twitch.tv/".data notSlashQ l with
  | some cap =>
      if !twitchBlock cap then some (String.mk (pyTake 20 cap))
      else twitchSecondCapture l
  | none => twitchSecondCapture l

/-- Embeds _extract_username_from_url: None on an empty URL; on a URL
containing youtube.com or youtu.be, the first matching YouTube pattern's
capture truncated to 20 characters, with a capture starting in UC
(a channel id) rewritten to yt_ plus its last 8 characters; otherwise, on
a URL containing twitch.tv, the Twitch patterns; None when nothing
matches. -/
def extract_username_from_url (url : String) : Option String :=
  if url = "" then none
  else
    let l := url.data
    if containsSub "youtube.com".data l || containsSub "youtu.be".data l then
      match youtubeCapture l with
      | some cap =>
          let username := pyTake 20 cap
          if !isPrefixList "UC".data username then some (String.mk username)
          else some (String.mk ("yt_".data ++ lastN 8 username))
      | none => none
    else if containsSub "twitch.tv".data l then
      twitchCapture l
    else none

/-! ### The link record -/

/-- One entry of the confirmed-voice-links list.  Input fields mirror the
keys read by the source (none models an absent key); extraction appends
the result fields, none meaning the key was never written. -/
structure LinkRecord where
  url : String := ""
  platform_type : Option String := none
  username : Option String := none
  screen_name : Option String := none
  user_name : Option String := none
  handle : Option String := none
  sample_extracted : Option Bool := none
  sample_file : Option (Option String) := none
  extraction_status : Option String := none
  sample_duration : Option Int := none
  actual_duration : Option Int := none
  sample_quality : Option String := none
  processed_username : Option String := none
  sample_filename : Option String := none
  platform_source : Option String := none
  original_username : Option String := none
deriving DecidableEq

/-- The record used when an index lookup needs a default. -/
def emptyRecord : LinkRecord := {}

/-- One identity field's contribution in priority 2 of
_extract_best_username: the field must be present, truthy and not an
empty-value sentinel; its stripped value must be nonempty and not
descriptive, else the loop moves to the next field. -/
def usernameFieldCandidate (v : Option String) : Option String :=
  match v with
  | none => none
  | some s =>
      if s ≠ "" && !is_empty_value s then
        let t := pyStrip s
        if t ≠ "" && !is_descriptive_text t then some t else none
      else none

/-- Priorities 2-4 of _extract_best_username: the identity fields
username, screen_name, user_name, handle in order, then a deterministic
id from the URL hash modulo 10000 (urlHash models Python's abs(hash(·)),
which is run-specific), then a time-based fallback id. -/
def best_username_fields (urlHash : String → Nat) (now : Nat)
    (r : LinkRecord) (url : String) : String :=
  match usernameFieldCandidate r.username with
  | some t => t
  | none =>
    match usernameFieldCandidate r.screen_name with
    | some t => t
    | none =>
      match usernameFieldCandidate r.user_name with
      | some t => t
      | none =>
        match usernameFieldCandidate r.handle with
        | some t => t
        | none =>
          if url ≠ "" then "user_" ++ toString (urlHash url % 10000)
          else "user_" ++ toString (now % 10000)

/-- Embeds _extract_best_username: priority 1 is the URL-extracted
username, accepted when truthy and longer than 2 characters; otherwise
the identity fields and fallback ids. -/
def extract_best_username (urlHash : String → Nat) (now : Nat)
    (r : LinkRecord) (url : String) : String :=
  match extract_username_from_url url with
  | some u =>
      if u ≠ "" ∧ 2 < u.length then u
      else best_username_fields urlHash now r url
  | none => best_username_fields urlHash now r url

/-! ### Filename sanitization (source: _sanitize_filename) -/

/-- Replace each maximal run of p-satisfying characters by a single rep
character: the regex substitution one-or-more-to-single used twice by
sanitize.  The inRun flag records whether the previous character was
inside a run. -/
def collapseAux (p : Char → Bool) (rep : Char) : Bool → List Char → List Char
  | _, [] => []
  | inRun, c :: cs =>
      if p c then
        if inRun then collapseAux p rep true cs
        else rep :: collapseAux p rep true cs
      else c :: collapseAux p rep false cs

/-- The underscore class. -/
def underP (c : Char) : Bool := c = '_'

/-- Embeds _sanitize_filename: fall back to a time-based id on an empty or
empty-value input; otherwise keep only word characters, whitespace and
hyphens, lowercase, replace whitespace runs by single underscores,
collapse underscore runs and strip edge underscores, drop everything
outside a-zA-Z0-9_, truncate to 20 characters, and fall back to the
time-based id if fewer than 2 characters remain. -/
def sanitize_filename (now : Nat) (s : String) : String :=
  if s = "" || is_empty_value s then "user_" ++ toString (now % 10000)
  else
    let l1 := s.data.filter
      (fun c => isAsciiWordChar c || pyIsSpace c || c = '-')
    let l2 := l1.map pyLowerChar
    let l3 := collapseAux pyIsSpace '_' false l2
    let l4 := stripList underP (collapseAux underP '_' false l3)
    let l5 := l4.filter isAsciiWordChar
    let l6 := if 20 < l5.length then pyTake 20 l5 else l5
    if l6.isEmpty || l6.length < 2 then "user_" ++ toString (now % 10000)
    else String.mk l6

/-- Lowercase letter, digit or underscore. -/
def isLowerAlnumU (c : Char) : Bool :=
  (97 ≤ c.toNat && c.toNat ≤ 122) || (48 ≤ c.toNat && c.toNat ≤ 57) ||
  c.toNat = 95

/-- No two adjacent underscores. -/
def noDoubleUnderscore : List Char → Bool
  | c1 :: c2 :: rest =>
      !(c1 = '_' && c2 = '_') && noDoubleUnderscore (c2 :: rest)
  | _ => true

/-- A canonical sanitized token: 2-20 characters drawn from lowercase
letters, digits and underscore, no two adjacent underscores, no leading or
trailing underscore, and not an empty-value sentinel.  Every condition
beyond the underscore placement and the sentinels holds of every sanitize
output; they are spelled out to make the predicate directly checkable. -/
def goodSanitized (t : String) : Bool :=
  t.data.all isLowerAlnumU &&
  noDoubleUnderscore t.data &&
  decide (2 ≤ t.length) && decide (t.length ≤ 20) &&
  !(t.data.headD ' ' = '_') && !(t.data.reverse.headD ' ' = '_') &&
  !(t = "nan") && !(t = "none") && !(t = "null")

/-! ### The orchestrator
(source: extract_voice_samples, _extract_audio_sample) -/

/-- The constructor configuration of VoiceSampleExtractor. -/
structure Config where
  output_dir : String := "voice_samples"
  min_duration : Int := 30
  max_duration : Int := 3600
  quality : String := "192"

/-- External observations available while processing one link: the
duration-probe outcome, the extraction oracle and VOD listing at every
Twitch recursion depth (depth 0 also serves the YouTube ladder), and the
three int(time.time()) reads — at filename creation, in the username
fallback and in the sanitize fallback. -/
structure LinkEnv where
  probe : ProbeOutcome
  steps : Nat → TwitchStepEnv
  timestamp : Nat
  fallbackTime : Nat
  sanitizeTime : Nat

/-- Fuel bounding the Twitch VOD recursion, standing in for Python's
recursion limit. -/
def pythonRecursionFuel : Nat := 1000

/-- Embeds _extract_audio_sample: build the output path inside the output
directory and dispatch on the exact platform string — youtube and twitch
run their ladders, anything else is the unsupported-platform failure.
(The enclosing try/except of the source, which downgrades any raised
exception to an extraction-error failure, has no pure counterpart here:
every embedded branch already returns a result.) -/
def extract_audio_sample (cfg : Config) (env : LinkEnv)
    (url filename platform nickname : String) (duration : Int) :
    ExtractionResult :=
  let output_path := cfg.output_dir ++ "/" ++ filename ++ ".mp3"
  if platform = "youtube" then
    extract_youtube_sample cfg.quality (env.steps 0).oracle url output_path
      nickname duration
  else if platform = "twitch" then
    extract_twitch_sample cfg.quality env.steps 0 pythonRecursionFuel url
      output_path nickname duration
  else
    { success := false, status := "unsupported_platform: " ++ platform }

/-- One iteration of the extract_voice_samples loop on one link record:
resolve the username, read the platform (unknown when the key is absent),
skip the record untouched when the URL is empty, otherwise resolve the
duration, sanitize the username, build the filename, run the extraction
and write all result fields onto the record.  Returns the updated record
and the success flag deciding membership in the returned list.  (The
fixed two-second inter-item delay of the source is a pure no-op here.) -/
def process_link (cfg : Config) (urlHash : String → Nat) (env : LinkEnv)
    (r : LinkRecord) : LinkRecord × Bool :=
  let url := r.url
  let username := extract_best_username urlHash env.fallbackTime r url
  let platform := match r.platform_type with | some p => p | none => "unknown"
  if url = "" then (r, false)
  else
    let optimal := get_optimal_duration cfg.min_duration cfg.max_duration
      env.probe
    let safe_username := sanitize_filename env.sanitizeTime username
    let safe_platform := if platform = "" then "unknown" else pyLower platform
    let filename := safe_username ++ "_" ++ safe_platform ++ "_" ++
      toString optimal ++ "s_" ++ toString env.timestamp
    let res := extract_audio_sample cfg env url filename platform
      safe_username optimal
    ({ r with
        sample_extracted := some res.success
        sample_file := some res.file_path
        extraction_status := some res.status
        sample_duration := some optimal
        actual_duration := some (res.actual_duration.getD optimal)
        sample_quality := some cfg.quality
        processed_username := some safe_username
        sample_filename := some (filename ++ ".mp3")
        platform_source := some safe_platform
        original_username := some username },
     res.success)

/-- The loop of extract_voice_samples from position k on: the first
component models the in-place mutations of all processed records, the
second the extracted_samples list the function returns. -/
def extract_voice_samples_go (cfg : Config) (urlHash : String → Nat)
    (envs : Nat → LinkEnv) : Nat → List LinkRecord →
    List LinkRecord × List LinkRecord
  | _, [] => ([], [])
  | k, r :: rest =>
      let p := process_link cfg urlHash (envs k) r
      let next := extract_voice_samples_go cfg urlHash envs (k + 1) rest
      (p.1 :: next.1, if p.2 then p.1 :: next.2 else next.2)

/-- Embeds extract_voice_samples: an empty input returns immediately;
otherwise every record is processed in order and the successful ones are
collected.  envs k carries the external observations of the k-th
iteration. -/
def extract_voice_samples (cfg : Config) (urlHash : String → Nat)
    (envs : Nat → LinkEnv) (records : List LinkRecord) :
    List LinkRecord × List LinkRecord :=
  match records with
  | [] => ([], [])
  | _ :: _ => extract_voice_samples_go cfg urlHash envs 0 records

/-- Map with an explicit running index, used to state what the loop
produces. -/
def mapFrom {α β : Type} (f : Nat → α → β) : Nat → List α → List β
  | _, [] => []
  | k, a :: as => f k a :: mapFrom f (k + 1) as

/-! ### Concrete data for witnesses and counterexamples -/

/-- An oracle whose first invocation times out and whose second invocation
completes with exit code 0 and an existing 777-byte output file. -/
def c2Oracle : Nat → RunOutcome := fun n =>
  if n = 1 then .completed 0 true 777 else .timedOut

/-- An environment whose VOD listing returns nothing and whose ladder
invocations all succeed immediately. -/
def c5Envs : Nat → TwitchStepEnv := fun _ =>
  { listing := ListingOutcome.noOutput
    oracle := fun _ => RunOutcome.completed 0 true 555 }

/-- A stand-in for Python's run-specific abs(hash(·)). -/
def zeroHash : String → Nat := fun _ => 0

/-- A record carrying a conflicting identity-field username. -/
def c7Record : LinkRecord :=
  { url := "https://www.twitch.tv/coolstreamer"
    username := some "somebodyelse" }

/-- The default constructor configuration. -/
def defaultCfg : Config := {}

/-- A per-link environment: probe reports 1:02:03, the first ladder rung
times out, the second succeeds. -/
def pipelineEnvs : Nat → LinkEnv := fun _ =>
  { probe := ProbeOutcome.ok 0 "1:02:03"
    steps := fun _ =>
      { listing := ListingOutcome.noOutput
        oracle := fun n =>
          if n = 1 then RunOutcome.completed 0 true 999
          else RunOutcome.timedOut }
    timestamp := 11
    fallbackTime := 22
    sanitizeTime := 33 }

/-- A one-record batch with a processable Twitch link. -/
def c3Records : List LinkRecord :=
  [{ url := "https://www.twitch.tv/coolstreamer"
     platform_type := some "twitch" }]

/-- A record with an empty URL and a perfectly usable identity field. -/
def cexRecord : LinkRecord := { url := "", username := some "alice" }

/-- A one-record batch with a YouTube link whose second ladder rung
(128 kbps) wins under pipelineEnvs. -/
def c9Records : List LinkRecord :=
  [{ url := "https://youtube.com/watch?v=abcdefg"
     platform_type := some "youtube" }]

end VoiceExtract

namespace VoiceExtract

/-! ### Fixed-point lemmas for sanitize on canonical tokens -/

theorem pyLowerChar_fixed (c : Char) (h : isLowerAlnumU c = true) :
    pyLowerChar c = c := by
  simp only [isLowerAlnumU, Bool.or_eq_true, Bool.and_eq_true,
    decide_eq_true_eq] at h
  simp only [pyLowerChar]
  rw [if_neg]
  simp only [Bool.and_eq_true, decide_eq_true_eq, not_and]
  omega

theorem isAsciiWordChar_of_lower (c : Char) (h : isLowerAlnumU c = true) :
    isAsciiWordChar c = true := by
  simp only [isLowerAlnumU, Bool.or_eq_true, Bool.and_eq_true,
    decide_eq_true_eq] at h
  simp only [isAsciiWordChar, Bool.or_eq_true, Bool.and_eq_true,
    decide_eq_true_eq]
  omega

theorem pyIsSpace_of_lower (c : Char) (h : isLowerAlnumU c = true) :
    pyIsSpace c = false := by
  simp only [isLowerAlnumU, Bool.or_eq_true, Bool.and_eq_true,
    decide_eq_true_eq] at h
  simp only [pyIsSpace, Bool.or_eq_false_iff, decide_eq_false_iff_not]
  omega

theorem map_fixed {f : Char → Char} :
    ∀ l : List Char, (∀ c ∈ l, f c = c) → l.map f = l := by
  intro l h
  induction l with
  | nil => rfl
  | cons c cs ih =>
      simp only [List.map_cons, h c (by simp)]
      rw [ih (fun d hd => h d (by simp [hd]))]

theorem dropWhile_id_of_head {p : Char → Bool} :
    ∀ l : List Char, l.headD ' ' ≠ '_' → p = underP → l.dropWhile p = l := by
  intro l h hp
  cases l with
  | nil => rfl
  | cons c cs =>
      subst hp
      refine List.dropWhile_cons_of_neg ?_
      simp only [underP, decide_eq_true_eq]
      simpa using h

theorem dropWhile_id_of_all {p : Char → Bool} :
    ∀ l : List Char, (∀ c ∈ l, p c = false) → l.dropWhile p = l := by
  intro l h
  cases l with
  | nil => rfl
  | cons c cs =>
      refine List.dropWhile_cons_of_neg ?_
      simp [h c (by simp)]

theorem stripList_id_of_all {p : Char → Bool} (l : List Char)
    (h : ∀ c ∈ l, p c = false) : stripList p l = l := by
  simp only [stripList]
  rw [dropWhile_id_of_all l h,
    dropWhile_id_of_all l.reverse (fun c hc => h c (by simpa using hc)),
    List.reverse_reverse]

theorem collapseAux_id_of_none (p : Char → Bool) (rep : Char) :
    ∀ l : List Char, (∀ c ∈ l, p c = false) →
      collapseAux p rep false l = l := by
  intro l h
  induction l with
  | nil => rfl
  | cons c cs ih =>
      simp only [collapseAux, h c (by simp), Bool.false_eq_true, if_false]
      rw [ih (fun d hd => h d (by simp [hd]))]

theorem noDoubleUnderscore_tail (c : Char) (cs : List Char)
    (h : noDoubleUnderscore (c :: cs) = true) :
    noDoubleUnderscore cs = true := by
  cases cs with
  | nil => rfl
  | cons d ds =>
      simp only [noDoubleUnderscore, Bool.and_eq_true] at h
      exact h.2

theorem collapse_under_id :
    ∀ l : List Char, noDoubleUnderscore l = true →
      (collapseAux underP '_' false l = l ∧
       (l.headD ' ' ≠ '_' → collapseAux underP '_' true l = l)) := by
  intro l
  induction l with
  | nil => exact fun _ => ⟨rfl, fun _ => rfl⟩
  | cons c cs ih =>
      intro h
      have htail := noDoubleUnderscore_tail c cs h
      obtain ⟨ihP, ihQ⟩ := ih htail
      constructor
      · by_cases hc : c = '_'
        · subst hc
          have hcs : cs.headD ' ' ≠ '_' := by
            cases cs with
            | nil => simp
            | cons d ds =>
                intro hd
                have hd' : d = '_' := by simpa using hd
                subst hd'
                simp [noDoubleUnderscore] at h
          simp [collapseAux, underP, ihQ hcs]
        · simp [collapseAux, underP, hc, ihP]
      · intro hhead
        have hc : c ≠ '_' := by simpa using hhead
        simp [collapseAux, underP, hc, ihP]

theorem string_mk_data (t : String) : String.mk t.data = t := rfl

/-- Sanitize leaves every canonical token unchanged. -/
theorem sanitize_fixed (now : Nat) (t : String)
    (h : goodSanitized t = true) : sanitize_filename now t = t := by
  simp only [goodSanitized, Bool.and_eq_true, Bool.not_eq_eq_eq_not,
    Bool.not_true, decide_eq_true_eq, decide_eq_false_iff_not] at h
  obtain ⟨⟨⟨⟨⟨⟨⟨⟨hall, hnd⟩, hlen2⟩, hlen20⟩, hhead⟩, hlast⟩, hnan⟩, hnone⟩,
    hnull⟩ := h
  have hmem : ∀ c ∈ t.data, isLowerAlnumU c = true := by
    intro c hc
    exact List.all_eq_true.mp hall c hc
  have hdata_ne : t.data ≠ [] := by
    intro hd
    have : t.length = 0 := by simp [String.length, hd]
    omega
  have htne : t ≠ "" := by
    intro he
    exact hdata_ne (by simp [he])
  -- str.lower and str.strip leave a canonical token unchanged
  have hlow : pyLower t = t := by
    simp only [pyLower]
    rw [map_fixed t.data (fun c hc => pyLowerChar_fixed c (hmem c hc))]
  have hstrip_data : stripList pyIsSpace t.data = t.data :=
    stripList_id_of_all t.data (fun c hc => pyIsSpace_of_lower c (hmem c hc))
  have hempty : is_empty_value t = false := by
    simp only [is_empty_value, hlow, pyStrip, hstrip_data, string_mk_data]
    simp [hnan, hnone, hnull, htne]
  have hguard : (t = "" || is_empty_value t) = false := by
    simp [htne, hempty]
  -- the five substitution stages are all the identity
  have hl1 :
      t.data.filter (fun c => isAsciiWordChar c || pyIsSpace c || c = '-')
        = t.data := by
    rw [List.filter_eq_self]
    intro c hc
    simp [isAsciiWordChar_of_lower c (hmem c hc)]
  have hl2 : t.data.map pyLowerChar = t.data :=
    map_fixed t.data (fun c hc => pyLowerChar_fixed c (hmem c hc))
  have hl3 : collapseAux pyIsSpace '_' false t.data = t.data :=
    collapseAux_id_of_none pyIsSpace '_' t.data
      (fun c hc => pyIsSpace_of_lower c (hmem c hc))
  have hl4a : collapseAux underP '_' false t.data = t.data :=
    (collapse_under_id t.data hnd).1
  have hl4b : stripList underP t.data = t.data := by
    simp only [stripList]
    rw [dropWhile_id_of_head t.data (by simpa using hhead) rfl,
      dropWhile_id_of_head t.data.reverse (by simpa using hlast) rfl,
      List.reverse_reverse]
  have hl5 : t.data.filter isAsciiWordChar = t.data := by
    rw [List.filter_eq_self]
    intro c hc
    simp [isAsciiWordChar_of_lower c (hmem c hc)]
  have hd20 : ¬ (20 < t.data.length) := by
    have h20 : t.data.length ≤ 20 := hlen20
    omega
  have hd2 : ¬ (t.data.length < 2) := by
    have h2 : 2 ≤ t.data.length := hlen2
    omega
  simp only [sanitize_filename, hguard, Bool.false_eq_true, if_false,
    hl1, hl2, hl3, hl4a, hl4b, hl5, if_neg hd20]
  rw [if_neg]
  simp only [List.isEmpty_iff, Bool.or_eq_true, decide_eq_true_eq, not_or]
  exact ⟨hdata_ne, hd2⟩

/-! ### Claim C8 -/

/-- C8 counterexample: sanitization is not idempotent.  Sanitizing
a_-_b yields a__b — the hyphen is removed only after underscore runs were
collapsed, leaving a fresh double underscore — and sanitizing a__b yields
a_b. -/
theorem spec_C8_not_idempotent_cex :
    sanitize_filename 0 "a_-_b" = "a__b" ∧
    sanitize_filename 0 (sanitize_filename 0 "a_-_b") = "a_b" ∧
    sanitize_filename 0 (sanitize_filename 0 "a_-_b")
      ≠ sanitize_filename 0 "a_-_b" := by
  refine ⟨by decide, by decide, by decide⟩

/-- C8 amended: sanitization is idempotent on every input whose sanitized
form is canonical — 2-20 lowercase/digit/underscore characters with no
double underscore, no edge underscore and not an empty-value sentinel
(conditions a second pass can violate only via the hyphen-removal,
truncation and sentinel interactions exhibited by the counterexample). -/
theorem spec_C8_idempotent_on_canonical (now : Nat) (s : String)
    (h : goodSanitized (sanitize_filename now s) = true) :
    sanitize_filename now (sanitize_filename now s)
      = sanitize_filename now s :=
  sanitize_fixed now (sanitize_filename now s) h

/-- Witness for C8 amended at a concrete input with a canonical sanitized
form. -/
theorem spec_C8_idempotent_on_canonical_witness :
    goodSanitized (sanitize_filename 0 "Hello World") = true ∧
    sanitize_filename 0 (sanitize_filename 0 "Hello World")
      = sanitize_filename 0 "Hello World" :=
  ⟨by decide, spec_C8_idempotent_on_canonical 0 "Hello World" (by decide)⟩

/-! ### Ladder lemmas shared by several claims -/

/-- If every rung before position i loses and rung i wins, the ladder loop
returns the success dictionary of rung i. -/
theorem runLadder_win (tag : String) :
    ∀ (rungs : List (String × Int)) (oracle : Nat → RunOutcome)
      (outputPath nickname : String) (duration : Int) (i : Nat)
      (h : i < rungs.length),
      (∀ j, j < i → rungWins (oracle j) = false) →
      rungWins (oracle i) = true →
      runLadder tag rungs oracle outputPath nickname duration
        = winResultOf tag (rungs.get ⟨i, h⟩).1 outputPath nickname duration
            (oracle i) := by
  intro rungs
  induction rungs with
  | nil => intro oracle out nick dur i h; exact absurd h (by simp)
  | cons r rest ih =>
      intro oracle out nick dur i h hprev hwin
      obtain ⟨q, t⟩ := r
      cases i with
      | zero =>
          simp only [runLadder, hwin, if_true]
          rfl
      | succ i' =>
          have h0 : rungWins (oracle 0) = false := hprev 0 (Nat.succ_pos i')
          simp only [runLadder, h0, Bool.false_eq_true, if_false]
          have := ih (fun n => oracle (n + 1)) out nick dur i'
            (Nat.lt_of_succ_lt_succ h)
            (fun j hj => hprev (j + 1) (Nat.succ_lt_succ hj)) hwin
          simpa using this

/-- If every rung loses, the ladder loop returns the all-qualities
failure. -/
theorem runLadder_exhaust (tag : String) :
    ∀ (rungs : List (String × Int)) (oracle : Nat → RunOutcome)
      (outputPath nickname : String) (duration : Int),
      (∀ j, j < rungs.length → rungWins (oracle j) = false) →
      runLadder tag rungs oracle outputPath nickname duration
        = allQualitiesFailure tag nickname duration := by
  intro rungs
  induction rungs with
  | nil => intro oracle out nick dur _; rfl
  | cons r rest ih =>
      intro oracle out nick dur hall
      obtain ⟨q, t⟩ := r
      have h0 : rungWins (oracle 0) = false := hall 0 (by simp)
      simp only [runLadder, h0, Bool.false_eq_true, if_false]
      exact ih (fun n => oracle (n + 1)) out nick dur
        (fun j hj => hall (j + 1) (by simpa using Nat.succ_lt_succ hj))

/-! ### Claim C2 -/

/-- C2: on both supported platforms the ladder tries its rungs in order —
configured bitrate first, then 128, 96, 64 — and the first rung whose
invocation exits successfully with an existing output file yields the
success result recording that rung's bitrate; timeouts, exceptions,
nonzero exits and missing files advance to the next rung, and exhausting
all four rungs yields the all-qualities-exhausted failure. -/
theorem spec_C2_quality_ladder (cfgQuality : String) (duration : Int)
    (url outputPath nickname : String) (oracle : Nat → RunOutcome)
    (envs : Nat → TwitchStepEnv) (depth fuel : Nat) (i : Nat)
    (hdirect : containsSub "/videos/".data url.data = true) :
    (i < 4 → (∀ j, j < i → rungWins (oracle j) = false) →
      rungWins (oracle i) = true →
      extract_youtube_sample cfgQuality oracle url outputPath nickname
          duration
        = winResultOf "youtube" ([cfgQuality, "128", "96", "64"].getD i "")
            outputPath nickname duration (oracle i)) ∧
    ((∀ j, j < 4 → rungWins (oracle j) = false) →
      extract_youtube_sample cfgQuality oracle url outputPath nickname
          duration
        = allQualitiesFailure "youtube" nickname duration) ∧
    (i < 4 → (∀ j, j < i → rungWins ((envs depth).oracle j) = false) →
      rungWins ((envs depth).oracle i) = true →
      extract_twitch_sample cfgQuality envs depth (fuel + 1) url outputPath
          nickname duration
        = winResultOf "twitch" ([cfgQuality, "128", "96", "64"].getD i "")
            outputPath nickname duration ((envs depth).oracle i)) ∧
    ((∀ j, j < 4 → rungWins ((envs depth).oracle j) = false) →
      extract_twitch_sample cfgQuality envs depth (fuel + 1) url outputPath
          nickname duration
        = allQualitiesFailure "twitch" nickname duration) := by
  have hvid :
      (!containsSub "/videos/".data url.data &&
        !containsSub "/clip/".data url.data &&
        !endsWithStr url "/videos") = false := by
    rw [hdirect]; rfl
  refine ⟨?_, ?_, ?_, ?_⟩
  · intro hi hprev hwin
    have hlen : i < (youtube_quality_options cfgQuality duration).length := by
      simpa [youtube_quality_options] using hi
    rw [extract_youtube_sample,
      runLadder_win "youtube" _ oracle outputPath nickname duration i hlen
        hprev hwin]
    congr 1
    interval_cases i <;> rfl
  · intro hall
    rw [extract_youtube_sample,
      runLadder_exhaust "youtube" _ oracle outputPath nickname duration
        (by simpa [youtube_quality_options] using hall)]
  · intro hi hprev hwin
    have hlen : i < (twitch_quality_options cfgQuality duration).length := by
      simpa [twitch_quality_options] using hi
    show extract_twitch_sample cfgQuality envs depth (fuel + 1) url
        outputPath nickname duration = _
    rw [extract_twitch_sample, hvid]
    simp only [Bool.false_eq_true, if_false]
    rw [runLadder_win "twitch" _ ((envs depth).oracle) outputPath nickname
      duration i hlen hprev hwin]
    congr 1
    interval_cases i <;> rfl
  · intro hall
    rw [extract_twitch_sample, hvid]
    simp only [Bool.false_eq_true, if_false]
    rw [runLadder_exhaust "twitch" _ ((envs depth).oracle) outputPath
      nickname duration (by simpa [twitch_quality_options] using hall)]

/-- Witness for C2: rung 1 (192 kbps) times out, rung 2 (128 kbps)
succeeds, and the result records 128, not 192. -/
theorem spec_C2_quality_ladder_witness :
    extract_youtube_sample "192" c2Oracle "https://www.twitch.tv/videos/1"
        "out.mp3" "nick" 600
      = winResultOf "youtube" "128" "out.mp3" "nick" 600 (c2Oracle 1) := by
  have h :=
    (spec_C2_quality_ladder "192" 600 "https://www.twitch.tv/videos/1"
      "out.mp3" "nick" c2Oracle c5Envs 0 0 1 (by decide)).1
      (by omega)
      (fun j hj => by interval_cases j; decide)
      (by decide)
  simpa using h

/-! ### Claim C5 -/

/-- C5 counterexample: the channel-style URL
https://www.twitch.tv/streamer/videos is neither a direct VOD URL (no
/videos/ segment) nor a clip URL, yet — because it ends in /videos — the
code skips VOD resolution entirely and feeds it to the direct quality
ladder: with a listing that would return no entry, the result is a ladder
Success rather than the no-recent-content failure the claim requires. -/
theorem spec_C5_videos_url_cex :
    (extract_twitch_sample "192" c5Envs 0 5
        "https://www.twitch.tv/streamer/videos" "out.mp3" "streamer"
        3600).success = true ∧
    (extract_twitch_sample "192" c5Envs 0 5
        "https://www.twitch.tv/streamer/videos" "out.mp3" "streamer"
        3600).status
      = "twitch_success_streamer_quality_192_duration_3600s" ∧
    extract_twitch_sample "192" c5Envs 0 5
        "https://www.twitch.tv/streamer/videos" "out.mp3" "streamer" 3600
      ≠ noRecentVodsFailure "streamer" := by
  refine ⟨by decide, by decide, by decide⟩

/-- C5 amended: for every Twitch URL containing neither /videos/ nor
/clip/ and not ending in /videos, extraction resolves the channel's most
recent VOD via the one-entry listing query on url.rstrip('/') + '/videos'
and recurses into standard Twitch extraction on the resolved VOD URL; if
no entry is returned or no usable URL field is present it fails with the
no-recent-VODs failure, and if the listing or its JSON parsing raises it
fails with the VOD-search-failed failure — in none of these cases does it
fall through to treating the channel URL itself as a direct stream.
(URLs ending in /videos are excluded: they bypass VOD resolution, as the
counterexample shows.) -/
theorem spec_C5_channel_resolution (cfgQuality : String)
    (envs : Nat → TwitchStepEnv) (depth fuel : Nat)
    (url outputPath nickname : String) (duration : Int)
    (h1 : containsSub "/videos/".data url.data = false)
    (h2 : containsSub "/clip/".data url.data = false)
    (h3 : endsWithStr url "/videos" = false) :
    (extract_twitch_sample cfgQuality envs depth (fuel + 1) url outputPath
        nickname duration
      = try_get_recent_twitch_vod (pyRStripSlash url ++ "/videos")
          (envs depth).listing nickname
          (fun vodUrl =>
            extract_twitch_sample cfgQuality envs (depth + 1) fuel vodUrl
              outputPath nickname duration)) ∧
    ((envs depth).listing = ListingOutcome.noOutput →
      extract_twitch_sample cfgQuality envs depth (fuel + 1) url outputPath
          nickname duration
        = noRecentVodsFailure nickname) ∧
    (∀ w u, (envs depth).listing = ListingOutcome.parsed w u →
      pyOrTruthy w u = none →
      extract_twitch_sample cfgQuality envs depth (fuel + 1) url outputPath
          nickname duration
        = noRecentVodsFailure nickname) ∧
    (∀ msg, (envs depth).listing = ListingOutcome.errored msg →
      extract_twitch_sample cfgQuality envs depth (fuel + 1) url outputPath
          nickname duration
        = vodSearchFailure nickname msg) ∧
    (∀ w u vodUrl, (envs depth).listing = ListingOutcome.parsed w u →
      pyOrTruthy w u = some vodUrl →
      extract_twitch_sample cfgQuality envs depth (fuel + 1) url outputPath
          nickname duration
        = extract_twitch_sample cfgQuality envs (depth + 1) fuel vodUrl
            outputPath nickname duration) := by
  have hmain :
      extract_twitch_sample cfgQuality envs depth (fuel + 1) url outputPath
          nickname duration
        = try_get_recent_twitch_vod (pyRStripSlash url ++ "/videos")
            (envs depth).listing nickname
            (fun vodUrl =>
              extract_twitch_sample cfgQuality envs (depth + 1) fuel vodUrl
                outputPath nickname duration) := by
    rw [extract_twitch_sample, h1, h2, h3]
    rfl
  refine ⟨hmain, ?_, ?_, ?_, ?_⟩
  · intro heq; rw [hmain, heq]; rfl
  · intro w u heq hnone
    rw [hmain, heq]
    simp only [try_get_recent_twitch_vod, hnone]
  · intro msg heq; rw [hmain, heq]; rfl
  · intro w u vodUrl heq hsome
    rw [hmain, heq]
    simp only [try_get_recent_twitch_vod, hsome]

/-- Witness for C5 amended at a concrete channel URL whose listing returns
no entry. -/
theorem spec_C5_channel_resolution_witness :
    containsSub "/videos/".data "https://www.twitch.tv/streamer".data
      = false ∧
    extract_twitch_sample "192" c5Envs 0 5 "https://www.twitch.tv/streamer"
        "out.mp3" "streamer" 3600
      = noRecentVodsFailure "streamer" :=
  ⟨by decide,
   (spec_C5_channel_resolution "192" c5Envs 0 4
      "https://www.twitch.tv/streamer" "out.mp3" "streamer" 3600
      (by decide) (by decide) (by decide)).2.1 rfl⟩

/-! ### Claims C1, C4, C6 -/

/-- C1: the spec claims three admissible shapes (H:MM:SS, MM:SS, bare
seconds).  In the code only the three-part shape parses: "1:02:03" gives
3723, but "02:03" and "45" are parse failures returning 0 (the source
applies int()/float() to the parts list itself, raising TypeError), so
resolution falls back to the configured maximum for them. -/
theorem spec_C1_parse_bug :
    parse_duration_string "1:02:03" = 3723 ∧
    parse_duration_string "02:03" = 0 ∧
    parse_duration_string "45" = 0 ∧
    get_optimal_duration 30 3600 (.ok 0 "02:03") = 3600 ∧
    get_optimal_duration 30 3600 (.ok 0 "45") = 3600 ∧
    get_optimal_duration 30 3600 (.ok 0 "garbage") = 3600 := by
  refine ⟨by decide, by decide, by decide, by decide, by decide, by decide⟩

/-- C4: whenever the duration probe fails, times out, or returns output
that does not parse to a positive duration, resolution returns the
configured maximum duration. -/
theorem spec_C4_fail_open (minD maxD : Int) (p : ProbeOutcome)
    (h : probeFailed p = true) :
    get_optimal_duration minD maxD p = maxD := by
  cases p with
  | ok rc out =>
      simp only [probeFailed, Bool.or_eq_true, decide_eq_true_eq] at h
      simp only [get_optimal_duration]
      rcases h with (h | h) | h
      · rw [if_neg]; intro ⟨h0, _⟩; exact h h0
      · rw [if_neg]; intro ⟨_, h1⟩; exact h1 h
      · by_cases hc : rc = 0 ∧ pyStrip out ≠ ""
        · rw [if_pos hc, if_neg (by omega)]
        · rw [if_neg hc]
  | timedOut => rfl
  | raised => rfl

/-- Witness for C4 at a concrete failing probe. -/
theorem spec_C4_fail_open_witness :
    probeFailed (.ok 0 "garbage") = true ∧
    get_optimal_duration 30 3600 (.ok 0 "garbage") = 3600 :=
  ⟨by decide, spec_C4_fail_open 30 3600 (.ok 0 "garbage") (by decide)⟩

/-- C6: on a successful (positive) parse the resolved duration is the
parsed value clamped into the inclusive configured range, and the clamp is
idempotent on values already inside the range; clamping never produces a
failure — the resolved value is always returned. -/
theorem spec_C6_clamp (minD maxD : Int) :
    (∀ rc out, rc = 0 → pyStrip out ≠ "" →
        0 < parse_duration_string (pyStrip out) →
        get_optimal_duration minD maxD (.ok rc out)
          = clampDuration minD maxD (parse_duration_string (pyStrip out))) ∧
    (∀ d : Int, minD ≤ d → d ≤ maxD →
        clampDuration minD maxD (clampDuration minD maxD d)
          = clampDuration minD maxD d) := by
  constructor
  · intro rc out h0 hne hpos
    simp only [get_optimal_duration]
    rw [if_pos ⟨h0, hne⟩, if_pos hpos]
  · intro d h1 h2
    simp only [clampDuration]
    omega

/-- Witness for C6 at a concrete parsed duration and a concrete in-range
value. -/
theorem spec_C6_clamp_witness :
    get_optimal_duration 30 3600 (.ok 0 "1:02:03")
      = clampDuration 30 3600 (parse_duration_string (pyStrip "1:02:03")) ∧
    clampDuration 30 3600 (clampDuration 30 3600 45)
      = clampDuration 30 3600 45 :=
  ⟨(spec_C6_clamp 30 3600).1 0 "1:02:03" rfl (by decide) (by decide),
   (spec_C6_clamp 30 3600).2 45 (by decide) (by decide)⟩

/-! ### Claim C7 -/

/-- C7: whenever a username of length greater than 2 can be extracted from
the URL, username resolution returns it, regardless of any identity fields
on the record — URL extraction has first precedence over identity fields,
the hash-based id and the time-based fallback id. -/
theorem spec_C7_url_precedence (urlHash : String → Nat) (now : Nat)
    (r : LinkRecord) (url u : String)
    (hu : extract_username_from_url url = some u)
    (hlen : 2 < u.length) :
    extract_best_username urlHash now r url = u := by
  have hne : u ≠ "" := by
    rintro rfl; exact absurd hlen (by decide)
  simp only [extract_best_username, hu]
  rw [if_pos ⟨hne, hlen⟩]

/-- Witness for C7: the URL-derived username wins over the identity
field. -/
theorem spec_C7_url_precedence_witness :
    extract_username_from_url "https://www.twitch.tv/coolstreamer"
      = some "coolstreamer" ∧
    2 < ("coolstreamer" : String).length ∧
    extract_best_username zeroHash 0 c7Record
        "https://www.twitch.tv/coolstreamer" = "coolstreamer" :=
  ⟨by decide, by decide,
   spec_C7_url_precedence zeroHash 0 c7Record
     "https://www.twitch.tv/coolstreamer" "coolstreamer"
     (by decide) (by decide)⟩

/-! ### Orchestrator lemmas -/

theorem mapFrom_length {α β : Type} (f : Nat → α → β) :
    ∀ (l : List α) (k : Nat), (mapFrom f k l).length = l.length := by
  intro l
  induction l with
  | nil => intro k; rfl
  | cons a as ih => intro k; simp [mapFrom, ih]

theorem mapFrom_getD {α β : Type} (f : Nat → α → β) (d : α) (e : β) :
    ∀ (l : List α) (k i : Nat), i < l.length →
      (mapFrom f k l).getD i e = f (k + i) (l.getD i d) := by
  intro l
  induction l with
  | nil => intro k i hi; simp at hi
  | cons a as ih =>
      intro k i hi
      cases i with
      | zero => simp [mapFrom]
      | succ j =>
          simp only [mapFrom, List.getD_cons_succ]
          rw [ih (k + 1) j (by simpa using hi)]
          congr 1
          omega

theorem go_eq (cfg : Config) (urlHash : String → Nat)
    (envs : Nat → LinkEnv) :
    ∀ (records : List LinkRecord) (k : Nat),
      extract_voice_samples_go cfg urlHash envs k records
        = (mapFrom (fun i r => (process_link cfg urlHash (envs i) r).1) k
             records,
           (mapFrom (fun i r => process_link cfg urlHash (envs i) r) k
             records).filterMap
               (fun p => if p.2 = true then some p.1 else none)) := by
  intro records
  induction records with
  | nil => intro k; rfl
  | cons r rest ih =>
      intro k
      simp only [extract_voice_samples_go, mapFrom, List.filterMap_cons,
        ih (k + 1)]
      by_cases hb : (process_link cfg urlHash (envs k) r).2 = true
      · simp [hb]
      · simp [hb]

theorem go_fst (cfg : Config) (urlHash : String → Nat)
    (envs : Nat → LinkEnv) (records : List LinkRecord) (k : Nat) :
    (extract_voice_samples_go cfg urlHash envs k records).1
      = mapFrom (fun i r => (process_link cfg urlHash (envs i) r).1) k
          records := by
  rw [go_eq cfg urlHash envs records k]

theorem process_link_skip (cfg : Config) (urlHash : String → Nat)
    (env : LinkEnv) (r : LinkRecord) (h : r.url = "") :
    process_link cfg urlHash env r = (r, false) := by
  simp [process_link, h]

theorem process_link_fields (cfg : Config) (urlHash : String → Nat)
    (env : LinkEnv) (r : LinkRecord) (h : r.url ≠ "") :
    (process_link cfg urlHash env r).1.sample_extracted
      = some (process_link cfg urlHash env r).2 ∧
    (∃ s, (process_link cfg urlHash env r).1.extraction_status = some s) ∧
    (process_link cfg urlHash env r).1.sample_quality = some cfg.quality := by
  simp only [process_link, if_neg h]
  exact ⟨trivial, ⟨_, rfl⟩, trivial⟩

/-! ### Claim C3 -/

/-- C3 counterexample: a record with an empty URL is skipped with only a
console notice — it is neither extracted nor given a recorded failure:
no extraction_status or sample_extracted key is ever written on it. -/
theorem spec_C3_silent_skip_cex :
    extract_voice_samples defaultCfg zeroHash pipelineEnvs [cexRecord]
      = ([cexRecord], []) ∧
    cexRecord.url = "" ∧
    cexRecord.extraction_status = none ∧
    cexRecord.sample_extracted = none := by
  refine ⟨by decide, rfl, rfl, rfl⟩

/-- C3 amended: every input link with a nonempty URL ends up in exactly
one of the two outcomes — its record always receives a sample_extracted
flag and an extraction_status, with the flag deciding extracted versus
recorded-failure — and no failure aborts the batch: every record of the
input is processed (the updated list keeps the input length).  A link
with an empty URL, however, is skipped with no outcome recorded: its
record is returned untouched. -/
theorem spec_C3_outcomes_amended (cfg : Config) (urlHash : String → Nat)
    (envs : Nat → LinkEnv) (records : List LinkRecord) (i : Nat)
    (hi : i < records.length) :
    (extract_voice_samples cfg urlHash envs records).1.length
      = records.length ∧
    ((records.getD i emptyRecord).url ≠ "" →
      ∃ b s,
        ((extract_voice_samples cfg urlHash envs records).1.getD i
          emptyRecord).sample_extracted = some b ∧
        ((extract_voice_samples cfg urlHash envs records).1.getD i
          emptyRecord).extraction_status = some s) ∧
    ((records.getD i emptyRecord).url = "" →
      (extract_voice_samples cfg urlHash envs records).1.getD i emptyRecord
        = records.getD i emptyRecord) := by
  cases records with
  | nil => simp at hi
  | cons r rest =>
      have hfst : (extract_voice_samples cfg urlHash envs (r :: rest)).1
          = mapFrom (fun j q => (process_link cfg urlHash (envs j) q).1) 0
              (r :: rest) :=
        go_fst cfg urlHash envs (r :: rest) 0
      refine ⟨?_, ?_, ?_⟩
      · rw [hfst]; exact mapFrom_length _ _ 0
      · intro hurl
        rw [hfst, mapFrom_getD _ emptyRecord emptyRecord (r :: rest) 0 i hi]
        obtain ⟨hb, ⟨s, hs⟩, _⟩ :=
          process_link_fields cfg urlHash (envs (0 + i)) _ hurl
        exact ⟨_, s, hb, hs⟩
      · intro hurl
        rw [hfst, mapFrom_getD _ emptyRecord emptyRecord (r :: rest) 0 i hi,
          process_link_skip cfg urlHash (envs (0 + i)) _ hurl]

/-- Witness for C3 amended: a processed link receives both outcome
fields. -/
theorem spec_C3_outcomes_amended_witness :
    (c3Records.getD 0 emptyRecord).url ≠ "" ∧
    (∃ b s,
      ((extract_voice_samples defaultCfg zeroHash pipelineEnvs
          c3Records).1.getD 0 emptyRecord).sample_extracted = some b ∧
      ((extract_voice_samples defaultCfg zeroHash pipelineEnvs
          c3Records).1.getD 0 emptyRecord).extraction_status = some s) :=
  ⟨by decide,
   (spec_C3_outcomes_amended defaultCfg zeroHash pipelineEnvs c3Records 0
      (by decide)).2.1 (by decide)⟩

/-! ### Claim C9 -/

/-- C9: for every processed link (nonempty URL) the sample_quality field
written onto the record equals the configured constructor quality, for
every environment — in particular regardless of which ladder rung
produced the file; the winning bitrate lives only in the status string. -/
theorem spec_C9_quality_field (cfg : Config) (urlHash : String → Nat)
    (envs : Nat → LinkEnv) (records : List LinkRecord) (i : Nat)
    (hi : i < records.length)
    (hurl : (records.getD i emptyRecord).url ≠ "") :
    ((extract_voice_samples cfg urlHash envs records).1.getD i
      emptyRecord).sample_quality = some cfg.quality := by
  cases records with
  | nil => simp at hi
  | cons r rest =>
      have hfst : (extract_voice_samples cfg urlHash envs (r :: rest)).1
          = mapFrom (fun j q => (process_link cfg urlHash (envs j) q).1) 0
              (r :: rest) :=
        go_fst cfg urlHash envs (r :: rest) 0
      rw [hfst, mapFrom_getD _ emptyRecord emptyRecord (r :: rest) 0 i hi]
      exact (process_link_fields cfg urlHash (envs (0 + i)) _ hurl).2.2

/-- Witness for C9: the 128 kbps rung produced the file — the status
string records 128 — yet sample_quality is the constructor's 192. -/
theorem spec_C9_quality_field_witness :
    ((extract_voice_samples defaultCfg zeroHash pipelineEnvs
        c9Records).1.getD 0 emptyRecord).extraction_status
      = some "youtube_success_abcdefg_quality_128_duration_3600s" ∧
    ((extract_voice_samples defaultCfg zeroHash pipelineEnvs
        c9Records).1.getD 0 emptyRecord).sample_quality = some "192" :=
  ⟨by decide,
   spec_C9_quality_field defaultCfg zeroHash pipelineEnvs c9Records 0
     (by decide) (by decide)⟩

/-! ### Claim C10 -/

/-- C10: extract_voice_samples returns, alongside the in-place updates of
all records, exactly the processed records whose extraction succeeded, in
input order — the success flag of process_link decides membership — and
an empty input yields empty outputs with no extraction attempt. -/
theorem spec_C10_returned_list (cfg : Config) (urlHash : String → Nat)
    (envs : Nat → LinkEnv) (records : List LinkRecord) :
    extract_voice_samples cfg urlHash envs records
      = (mapFrom (fun i r => (process_link cfg urlHash (envs i) r).1) 0
           records,
         (mapFrom (fun i r => process_link cfg urlHash (envs i) r) 0
           records).filterMap
             (fun p => if p.2 = true then some p.1 else none)) ∧
    extract_voice_samples cfg urlHash envs [] = ([], []) := by
  refine ⟨?_, rfl⟩
  cases records with
  | nil => rfl
  | cons r rest => exact go_eq cfg urlHash envs (r :: rest) 0

end VoiceExtract
